import Mathlib

/-!
Verification of the RustScan command-line front end (src/src/main.rs).

The file embeds, in Lean, the pieces of `main.rs` that the claims of the
specification are about: address parsing (`parse_address`, `parse_addresses`,
`resolve_ips_from_host`, `read_ips_from_file`), the resource governor
(`adjust_ulimit_size`, `infer_batch_size`), and the result grouping and
greppable rendering performed by `main`.

External collaborators that are not part of the sources of the repository (the
`cidr_utils` crate, the OS socket-address lookup, the injectable trust-dns
resolver, the filesystem, the rlimit syscalls, and the engine of the scanner
module) are modelled as explicit parameters or, where the spec pins their
behaviour, as definitions marked `Modelled from the spec`.
-/

namespace RustScan

/-- IP address as in `std::net::IpAddr`: a v4 address is four octets; the v6
textual form is not needed by any claim and is modelled loosely. -/
inductive IpAddr where
  | v4 (a b c d : Nat) : IpAddr
  | v6 (segments : List Nat) : IpAddr
deriving DecidableEq, Repr

/-- Socket address: an IP address paired with a port (`std::net::SocketAddr`). -/
structure SocketAddr where
  ip : IpAddr
  port : Nat
deriving DecidableEq, Repr

/-- Modelled from the spec: the `input` module (struct `Opts`) is not under
`src/`; only the fields `main.rs` reads are modelled, with the ranges §6 of
the spec gives them (`batch_size` is a `u16`, `ulimit` an optional `u64`). -/
structure Opts where
  addresses : List String
  batch_size : Nat
  ulimit : Option Nat
  greppable : Bool
  accessible : Bool
  no_nmap : Bool
deriving DecidableEq, Repr

/-! ### Character-level parsing helpers

The `cidr_utils` crate is not part of the repository, so IPv4 literal and
CIDR parsing is modelled from the spec at the character level (structural
recursion keeps every concrete instance kernel-computable). -/

/-- Splits a character list on a separator character; like `str::split`
in Rust, `n+1` chunks for `n` separators. -/
def splitOnChar (c : Char) : List Char → List (List Char)
  | [] => [[]]
  | x :: xs =>
    let r := splitOnChar c xs
    if x = c then [] :: r
    else
      match r with
      | y :: ys => (x :: y) :: ys
      | [] => [[x]]

/-- Value of a decimal digit character, `none` on a non-digit. -/
def charDigitVal (c : Char) : Option Nat :=
  if c.isDigit then some (c.toNat - 48) else none

/-- Decimal number denoted by a non-empty all-digit character list. -/
def digitsToNat (cs : List Char) : Option Nat :=
  match cs with
  | [] => none
  | _ =>
    cs.foldl
      (fun acc c =>
        match acc, charDigitVal c with
        | some n, some d => some (n * 10 + d)
        | _, _ => none)
      (some 0)

/-- An IPv4 octet: a decimal number of value at most 255. -/
def parseOctet (cs : List Char) : Option Nat :=
  match digitsToNat cs with
  | some n => if n ≤ 255 then some n else none
  | none => none

/-- Dotted-quad IPv4 literal as its 32-bit numeric value. -/
def parseIpv4 (cs : List Char) : Option Nat :=
  match (splitOnChar ('.') cs).mapM parseOctet with
  | some [a, b, c, d] => some (a * 16777216 + b * 65536 + c * 256 + d)
  | _ => none

/-- The IPv4 address with 32-bit numeric value `n`. -/
def natToIpv4 (n : Nat) : IpAddr :=
  IpAddr.v4 (n / 16777216 % 256) (n / 65536 % 256) (n / 256 % 256) (n % 256)

/-- Modelled from the spec: `cidr_utils::cidr::IpCidr::from_str` is not under
`src/`.  Per the spec it accepts a bare IP literal or a CIDR block, and a CIDR
block is "expanded host-by-host, including network and broadcast addresses".
Only IPv4, which is all the claims exercise: a bare literal yields itself, and
`a.b.c.d/p` yields the `2 ^ (32 - p)` addresses of its network in ascending
order. -/
def ipCidrFromStr (s : String) : Option (List IpAddr) :=
  match splitOnChar ('/') s.data with
  | [ipChars] => (parseIpv4 ipChars).map (fun n => [natToIpv4 n])
  | [ipChars, prefChars] =>
    match parseIpv4 ipChars, digitsToNat prefChars with
    | some n, some prefLen =>
      if prefLen ≤ 32 then
        let hostCount := 2 ^ (32 - prefLen)
        some ((List.range hostCount).map (fun i => natToIpv4 (n - n % hostCount + i)))
      else none
    | _, _ => none
  | _ => none

/-- Environment of external collaborators consulted while parsing addresses:
`socketAddrFirst` is the first address produced by
`format!("{}:{}", address, 80).to_socket_addrs()` (`none` when that lookup
fails), `lookupIp` is the full answer of the injectable trust-dns resolver (empty
on failure, as in `resolve_ips_from_host`), `isFile` is `Path::is_file`, and
`fileLines` is the line list of a file `File::open` can read (`none` when the
open fails). -/
structure NetEnv where
  socketAddrFirst : String → Option IpAddr
  lookupIp : String → List IpAddr
  isFile : String → Bool
  fileLines : String → Option (List String)

/-- Embeds `resolve_ips_from_host` (main.rs lines 267 to 272): every address
the resolver returns is collected; a failed lookup yields `Ok` of the empty
vector, so the function never errors and is embedded as the plain list. -/
def resolve_ips_from_host (env : NetEnv) (source : String) : List IpAddr :=
  env.lookupIp source

/-- Embeds `parse_address` (main.rs lines 249 to 264).  The return type in the source
is `Result`, but every path returns `Ok`, so the embedding returns the
vector directly.  The string is tried as CIDR or bare IP first; failing that
as a socket address, keeping only the first resolved address (`iter.nth(0)`);
failing that through the injectable resolver, keeping every address. -/
def parse_address (env : NetEnv) (address : String) : List IpAddr :=
  match ipCidrFromStr address with
  | some cidrIps => cidrIps
  | none =>
    match env.socketAddrFirst address with
    | some ip => [ip]
    | none => resolve_ips_from_host env address

/-- Embeds `read_ips_from_file` (main.rs lines 276 to 299): an unreadable file
is an `Err` (the `?` on `File::open`); otherwise each line is run through
`parse_address` and the results are concatenated (the per-line `Err` branch is
dead because `parse_address` always returns `Ok`). -/
def read_ips_from_file (env : NetEnv) (path : String) :
    Except Unit (List IpAddr) :=
  match env.fileLines path with
  | none => Except.error ()
  | some lines => Except.ok (lines.flatMap (fun address => parse_address env address))

/-- Embeds `parse_addresses` (main.rs lines 192 to 244).  First pass: each
entry is run through `parse_address`; a non-empty result extends `ips`, an
empty one is pushed onto `unresolved_addresses` (the `Err` arm with its
warning is dead code, since `parse_address` always returns `Ok`).  Second
pass: each unresolved entry is retried as a file path; non-files and
unreadable files are dropped with a warning. -/
def parse_addresses (env : NetEnv) (input : Opts) : List IpAddr :=
  let firstPass :=
    input.addresses.foldl
      (fun (acc : List IpAddr × List String) address =>
        let parsed := parse_address env address
        if parsed.isEmpty then (acc.1, acc.2 ++ [address])
        else (acc.1 ++ parsed, acc.2))
      ([], [])
  firstPass.2.foldl
    (fun ips filePath =>
      if env.isFile filePath then
        match read_ips_from_file env filePath with
        | Except.ok x => ips ++ x
        | Except.error _ => ips
      else ips)
    firstPass.1

/-- Environment of the unit tests of the source for the claim inputs: no hostname
resolves (neither through the socket-address path nor the DNS resolver) and
no entry names a readable file. -/
def refEnv : NetEnv where
  socketAddrFirst := fun _ => none
  lookupIp := fun _ => []
  isFile := fun _ => false
  fileLines := fun _ => none

/-- Convenience `Opts` with the fields the governor and parser tests use. -/
def testOpts (addresses : List String) (batchSize : Nat) : Opts where
  addresses := addresses
  batch_size := batchSize
  ulimit := none
  greppable := true
  accessible := false
  no_nmap := false

/-! ### Resource governor -/

/-- Average value for Ubuntu (main.rs line 34). -/
def DEFAULT_FILE_DESCRIPTORS_LIMIT : Nat := 8000

/-- Safest batch size based on experimentation (main.rs line 36). -/
def AVERAGE_BATCH_SIZE : Nat := 3000

/-- Soft and hard `NOFILE` limits of the process. -/
structure RlimitState where
  soft : Nat
  hard : Nat
deriving DecidableEq, Repr

/-- Embeds `adjust_ulimit_size` (main.rs lines 322 to 347).  When an explicit
ulimit is supplied, `setrlimit(NOFILE, limit, limit)` is attempted; the
success of the syscall is the environment boolean `setrlimitOk`.  On success both
limits become the target; on failure the state is unchanged and a warning is
emitted (third component).  Either way the returned value is the soft limit
read back from the OS by `getrlimit`. -/
def adjust_ulimit_size (opts : Opts) (st : RlimitState) (setrlimitOk : Bool) :
    Nat × RlimitState × Bool :=
  match opts.ulimit with
  | some limit =>
    let st' := if setrlimitOk then RlimitState.mk limit limit else st
    (st'.soft, st', !setrlimitOk)
  | none => (st.soft, st, false)

/-- Embeds `infer_batch_size` (main.rs lines 349 to 383).  `opts.batch_size`
is a `u16` in the source and the result is cast back `as u16`, hence the
final reduction modulo 65536 (lossless whenever the requested size is in the
`u16` range). -/
def infer_batch_size (opts : Opts) (ulimit : Nat) : Nat :=
  let batchSize := opts.batch_size
  let batchSize :=
    if ulimit < batchSize then
      if ulimit < AVERAGE_BATCH_SIZE then ulimit / 2
      else if DEFAULT_FILE_DESCRIPTORS_LIMIT < ulimit then AVERAGE_BATCH_SIZE
      else ulimit - 100
    else batchSize
  batchSize % 65536

/-! ### Result grouping and greppable rendering in `main` -/

/-- One step of `ports_per_ip.entry(ip).or_insert_with(Vec::new).push(port)`
on an association list: the port is appended to the first entry with this
key, or a fresh entry is appended at the end. -/
def insert_port (m : List (IpAddr × List Nat)) (ip : IpAddr) (port : Nat) :
    List (IpAddr × List Nat) :=
  match m with
  | [] => [(ip, [port])]
  | (k, ps) :: rest =>
    if k = ip then (k, ps ++ [port]) :: rest
    else (k, ps) :: insert_port rest ip port

/-- Embeds the grouping loop of `main` (main.rs lines 89 to 96): the scan
result is folded into a map from IP to the list of its ports, in discovery
order.  The Rust `HashMap` iterates in unspecified order; the model fixes
first-insertion order for the keys (no claim depends on the key order). -/
def group_ports_per_ip (scanResult : List SocketAddr) : List (IpAddr × List Nat) :=
  scanResult.foldl (fun m s => insert_port m s.ip s.port) []

/-- Ports of `ip` in a grouped map (first entry with this key; empty when
absent). -/
def portsOf : List (IpAddr × List Nat) → IpAddr → List Nat
  | [], _ => []
  | (k, ps) :: rest, ip => if k = ip then ps else portsOf rest ip

/-- Textual form of an address, as `Display for IpAddr` renders the inputs of
the claims (the v6 form is approximate and unused by the claims). -/
def ipAddrToString : IpAddr → String
  | IpAddr.v4 a b c d =>
    toString a ++ (".") ++ toString b ++ (".") ++ toString c ++ (".") ++ toString d
  | IpAddr.v6 segments => String.intercalate (":") (segments.map toString)

/-- The `ports_str` of `main` (main.rs lines 117 to 120): decimal ports
joined by commas, no spaces. -/
def ports_str (ports : List Nat) : String :=
  String.intercalate (",") (ports.map toString)

/-- The greppable output line `println!("{} -> [{}]", &ip, ports_str)`
(main.rs line 124). -/
def greppable_line (ip : IpAddr) (ports : List Nat) : String :=
  ipAddrToString ip ++ (" -> [") ++ ports_str ports ++ ("]")

/-- Observable outcome of one run of `main`: the process exit code, whether
the `Scanner` was constructed, and the greppable lines printed. -/
structure MainResult where
  exitCode : Nat
  scannerBuilt : Bool
  outputLines : List String
deriving DecidableEq, Repr

/-- Embeds the claim-relevant skeleton of `main` (main.rs lines 59 to 159).
The scanner module is not under `src/`, so the output of the engine — the list of
open sockets `scanner.run()` discovers — is the parameter `scanRun`, a
function of the inferred batch size.  `main` aborts with exit code 1 before
building the scanner when no address resolved; otherwise it adjusts the
ulimit, infers the batch size, runs the scan, groups the result per IP and,
in greppable or no-nmap mode, prints one line per host; it then finishes
normally (exit code 0, nmap invocation not modelled). -/
def main_model (env : NetEnv) (opts : Opts) (st : RlimitState)
    (setrlimitOk : Bool) (scanRun : Nat → List SocketAddr) : MainResult :=
  let ips := parse_addresses env opts
  if ips.isEmpty then
    MainResult.mk 1 false []
  else
    let ulimit := (adjust_ulimit_size opts st setrlimitOk).1
    let batchSize := infer_batch_size opts ulimit
    let scanResult := scanRun batchSize
    let portsPerIp := group_ports_per_ip scanResult
    let lines :=
      if opts.greppable || opts.no_nmap then
        portsPerIp.map (fun e => greppable_line e.1 e.2)
      else []
    MainResult.mk 0 true lines

/-! ### Derived notions and helper lemmas -/

/-- Contribution of one unresolved entry in the second pass of
`parse_addresses`: the addresses its file yields when it names a readable
file, nothing otherwise. -/
def fileContribution (env : NetEnv) (p : String) : List IpAddr :=
  if env.isFile p then
    match read_ips_from_file env p with
    | Except.ok x => x
    | Except.error _ => []
  else []

/-- An entry resolves when `parse_address` yields at least one address or the
entry names a readable file. -/
def entryResolves (env : NetEnv) (a : String) : Bool :=
  !(parse_address env a).isEmpty || (env.isFile a && (env.fileLines a).isSome)

/-- Environment in which the socket-address lookup fails but the injectable
resolver knows two addresses for every hostname. -/
def multiAddrEnv : NetEnv where
  socketAddrFirst := fun _ => none
  lookupIp := fun _ => [IpAddr.v4 10 0 0 1, IpAddr.v4 10 0 0 2]
  isFile := fun _ => false
  fileLines := fun _ => none

/-- Environment in which the socket-address lookup resolves every hostname to
one address. -/
def oneAddrEnv : NetEnv where
  socketAddrFirst := fun _ => some (IpAddr.v4 10 0 0 1)
  lookupIp := fun _ => []
  isFile := fun _ => false
  fileLines := fun _ => none

/-- Opts of the source test `batch_size_adjusted_2000`: requested batch
50000 and an explicit ulimit target of 2000. -/
def testOptsUlimit : Opts where
  addresses := []
  batch_size := 50000
  ulimit := some 2000
  greppable := true
  accessible := false
  no_nmap := false

lemma firstPass_spec (env : NetEnv) :
    ∀ (addrs : List String) (ips : List IpAddr) (un : List String),
      addrs.foldl
        (fun (acc : List IpAddr × List String) address =>
          let parsed := parse_address env address
          if parsed.isEmpty then (acc.1, acc.2 ++ [address])
          else (acc.1 ++ parsed, acc.2))
        (ips, un) =
      (ips ++ addrs.flatMap (fun a => parse_address env a),
       un ++ addrs.filter (fun a => (parse_address env a).isEmpty)) := by
  intro addrs
  induction addrs with
  | nil => intro ips un; simp
  | cons a l ih =>
    intro ips un
    rw [List.foldl_cons]
    show List.foldl _
        (if (parse_address env a).isEmpty then (ips, un ++ [a])
         else (ips ++ parse_address env a, un)) l = _
    by_cases h : (parse_address env a).isEmpty
    · have ha : parse_address env a = [] := by simpa using h
      rw [if_pos h, ih]
      simp [h, ha, List.append_assoc]
    · rw [if_neg h, ih]
      simp [h, List.append_assoc]

lemma secondPass_spec (env : NetEnv) :
    ∀ (un : List String) (ips : List IpAddr),
      un.foldl
        (fun ips filePath =>
          if env.isFile filePath then
            match read_ips_from_file env filePath with
            | Except.ok x => ips ++ x
            | Except.error _ => ips
          else ips)
        ips =
      ips ++ un.flatMap (fileContribution env) := by
  intro un
  induction un with
  | nil => intro ips; simp
  | cons p l ih =>
    intro ips
    by_cases h : env.isFile p
    · cases hr : read_ips_from_file env p with
      | ok x => simp [List.foldl_cons, h, hr, ih, fileContribution, List.append_assoc]
      | error e => simp [List.foldl_cons, h, hr, ih, fileContribution]
    · simp [List.foldl_cons, h, ih, fileContribution]

lemma parse_addresses_decomposition (env : NetEnv) (input : Opts) :
    parse_addresses env input =
      input.addresses.flatMap (fun a => parse_address env a) ++
        (input.addresses.filter (fun a => (parse_address env a).isEmpty)).flatMap
          (fileContribution env) := by
  simp only [parse_addresses]
  rw [firstPass_spec]
  simp only []
  rw [secondPass_spec]
  simp

lemma entryResolves_false (env : NetEnv) (a : String)
    (h : entryResolves env a = false) :
    parse_address env a = [] ∧ fileContribution env a = [] := by
  simp only [entryResolves, Bool.or_eq_false_iff, Bool.not_eq_false',
    Bool.and_eq_false_iff] at h
  obtain ⟨h1, h2⟩ := h
  have ha : parse_address env a = [] := by simpa using h1
  refine ⟨ha, ?_⟩
  rcases h2 with h2 | h2
  · simp [fileContribution, h2]
  · cases hf : env.isFile a
    · simp [fileContribution, hf]
    · have hl : env.fileLines a = none := by
        cases hval : env.fileLines a
        · rfl
        · rw [hval] at h2; simp at h2
      simp [fileContribution, hf, read_ips_from_file, hl]

lemma flatMap_parse_filter (env : NetEnv) :
    ∀ l : List String,
      (l.filter (fun a => entryResolves env a)).flatMap
          (fun a => parse_address env a) =
        l.flatMap (fun a => parse_address env a) := by
  intro l
  induction l with
  | nil => simp
  | cons a l ih =>
    cases h : entryResolves env a
    · have := (entryResolves_false env a h).1
      simp [List.filter_cons, h, ih, this]
    · simp [List.filter_cons, h, ih]

lemma filter_file_contrib (env : NetEnv) :
    ∀ l : List String,
      ((l.filter (fun a => entryResolves env a)).filter
            (fun a => (parse_address env a).isEmpty)).flatMap
          (fileContribution env) =
        (l.filter (fun a => (parse_address env a).isEmpty)).flatMap
          (fileContribution env) := by
  intro l
  induction l with
  | nil => simp
  | cons a l ih =>
    simp only [List.filter_filter] at ih
    cases h : entryResolves env a
    · obtain ⟨h1, h2⟩ := entryResolves_false env a h
      simp [List.filter_cons, List.filter_filter, h, h1, h2, ih]
    · by_cases he : (parse_address env a).isEmpty
      · simp [List.filter_cons, List.filter_filter, h, he, ih]
      · simp [List.filter_cons, List.filter_filter, h, he, ih]

lemma portsOf_insert_port (m : List (IpAddr × List Nat)) (ip : IpAddr)
    (p : Nat) (q : IpAddr) :
    portsOf (insert_port m ip p) q =
      if q = ip then portsOf m q ++ [p] else portsOf m q := by
  induction m with
  | nil =>
    by_cases h : q = ip
    · subst h; simp [insert_port, portsOf]
    · have h' : ¬ip = q := fun hc => h hc.symm
      simp [insert_port, portsOf, h, h']
  | cons e rest ih =>
    obtain ⟨k, ps⟩ := e
    by_cases hk : k = ip
    · subst hk
      by_cases hq : q = k
      · subst hq; simp [insert_port, portsOf]
      · have hq' : ¬k = q := fun hc => hq hc.symm
        simp [insert_port, portsOf, hq, hq']
    · by_cases hq : q = k
      · subst hq
        have hip : ¬q = ip := fun hc => hk (hc ▸ rfl)
        simp [insert_port, portsOf, hk, hip]
      · have hq' : ¬k = q := fun hc => hq hc.symm
        simp [insert_port, portsOf, hk, hq', ih]

lemma foldl_insert_port_spec :
    ∀ (l : List SocketAddr) (m : List (IpAddr × List Nat)) (ip : IpAddr),
      portsOf (l.foldl (fun m s => insert_port m s.ip s.port) m) ip =
        portsOf m ip ++ (l.filter (fun s => s.ip = ip)).map SocketAddr.port := by
  intro l
  induction l with
  | nil => intro m ip; simp
  | cons s l ih =>
    intro m ip
    rw [List.foldl_cons, ih, portsOf_insert_port]
    by_cases h : s.ip = ip
    · simp [List.filter_cons, h, List.append_assoc]
    · have h' : ¬ip = s.ip := fun hc => h hc.symm
      simp [List.filter_cons, h, h']

lemma group_ports_per_ip_spec (scanResult : List SocketAddr) (ip : IpAddr) :
    portsOf (group_ports_per_ip scanResult) ip =
      (scanResult.filter (fun s => s.ip = ip)).map SocketAddr.port := by
  simpa [portsOf] using foldl_insert_port_spec scanResult [] ip

/-! ### Claim theorems -/

/-- C1: `infer_batch_size` is a total function of `(requested, limit)`
computing its result by top-down cases with `AVG = 3000` and
`DEFAULT = 8000`: if `limit ≥ requested` the result is `requested`; else if
`limit < AVG` it is `limit / 2`; else if `limit > DEFAULT` it is `AVG`;
otherwise it is `limit - 100`.  In particular the three unit-test values of
the source hold.  (`requested` is a `u16`, whence the bound.) -/
theorem claim_C1 (opts : Opts) (ulimit : Nat) (hreq : opts.batch_size < 65536) :
    (opts.batch_size ≤ ulimit → infer_batch_size opts ulimit = opts.batch_size) ∧
    (ulimit < opts.batch_size → ulimit < AVERAGE_BATCH_SIZE →
      infer_batch_size opts ulimit = ulimit / 2) ∧
    (ulimit < opts.batch_size → AVERAGE_BATCH_SIZE ≤ ulimit →
      DEFAULT_FILE_DESCRIPTORS_LIMIT < ulimit →
      infer_batch_size opts ulimit = AVERAGE_BATCH_SIZE) ∧
    (ulimit < opts.batch_size → AVERAGE_BATCH_SIZE ≤ ulimit →
      ulimit ≤ DEFAULT_FILE_DESCRIPTORS_LIMIT →
      infer_batch_size opts ulimit = ulimit - 100) ∧
    infer_batch_size (testOpts [] 50000) 9000 = 3000 ∧
    infer_batch_size (testOpts [] 50000) 5000 = 4900 ∧
    infer_batch_size (testOpts [] 10) 1000000 = 10 := by
  refine ⟨?_, ?_, ?_, ?_, by decide, by decide, by decide⟩ <;>
    simp only [infer_batch_size, AVERAGE_BATCH_SIZE, DEFAULT_FILE_DESCRIPTORS_LIMIT] <;>
    intros <;> split_ifs <;> omega

/-- Witness for C1 at the three concrete unit-test inputs of the source. -/
theorem claim_C1_witness :
    infer_batch_size (testOpts [] 50000) 9000 = 3000 ∧
    infer_batch_size (testOpts [] 10) 1000000 = 10 := by
  have h := claim_C1 (testOpts [] 10) 1000000 (by decide)
  exact ⟨h.2.2.2.2.1, h.1 (by decide)⟩

/-- C2 as stated is false: with the valid inputs `requested = 50000`
(a batch size in `1..=65535`) and `limit = 1` (a non-negative
file-descriptor limit), `infer_batch_size` returns `1 / 2 = 0 < 1`. -/
theorem claim_C2_counterexample :
    ¬(infer_batch_size (testOpts [] 50000) 1 ≤ max 50000 1 ∧
      1 ≤ infer_batch_size (testOpts [] 50000) 1) := by decide

/-- C2, amended: for requested of `u16` range with `requested ≥ 1`, the
result is always at most `max requested limit`, and is at least 1 whenever
additionally `limit ≥ 2` or `limit ≥ requested` (for `limit ≤ 1 <
requested` the halving case yields 0). -/
theorem claim_C2_amended (opts : Opts) (ulimit : Nat) (h1 : 1 ≤ opts.batch_size)
    (h2 : opts.batch_size < 65536) :
    infer_batch_size opts ulimit ≤ max opts.batch_size ulimit ∧
    (2 ≤ ulimit ∨ opts.batch_size ≤ ulimit → 1 ≤ infer_batch_size opts ulimit) := by
  simp only [infer_batch_size, AVERAGE_BATCH_SIZE, DEFAULT_FILE_DESCRIPTORS_LIMIT]
  constructor
  · split_ifs <;> omega
  · intro h3
    rcases h3 with h3 | h3 <;> split_ifs <;> omega

/-- Witness for the amended C2 at `(50000, 5000)`. -/
theorem claim_C2_witness :
    infer_batch_size (testOpts [] 50000) 5000 ≤ max 50000 5000 ∧
    1 ≤ infer_batch_size (testOpts [] 50000) 5000 := by
  have h := claim_C2_amended (testOpts [] 50000) 5000 (by decide) (by decide)
  exact ⟨h.1, h.2 (Or.inl (by omega))⟩

/-- C3: parsing the address list `["127.0.0.1", "192.168.0.0/30"]` yields
exactly the five addresses `127.0.0.1, 192.168.0.0, 192.168.0.1,
192.168.0.2, 192.168.0.3` in that order — the CIDR block is expanded
host-by-host including the network and broadcast addresses, and expansion
preserves input order. -/
theorem claim_C3 :
    parse_addresses refEnv (testOpts [("127.0.0.1"), ("192.168.0.0/30")] 4500) =
      [IpAddr.v4 127 0 0 1, IpAddr.v4 192 168 0 0, IpAddr.v4 192 168 0 1,
       IpAddr.v4 192 168 0 2, IpAddr.v4 192 168 0 3] := by decide

/-- Scan result whose ports for `127.0.0.1` arrive out of order. -/
def cexScan : List SocketAddr :=
  [SocketAddr.mk (IpAddr.v4 127 0 0 1) 443, SocketAddr.mk (IpAddr.v4 127 0 0 1) 80]

/-- C4 as stated is false: `main` never sorts the per-IP port lists.  When
the engine reports `127.0.0.1:443` before `127.0.0.1:80`, the grouped
mapping holds `[443, 80]` for that host and the greppable line renders
`127.0.0.1 -> [443,80]`, which is not a sorted port list. -/
theorem claim_C4_counterexample :
    main_model refEnv (testOpts [("127.0.0.1")] 4500) (RlimitState.mk 8000 8000)
        true (fun _ => cexScan) =
      MainResult.mk 0 true [("127.0.0.1 -> [443,80]")] ∧
    group_ports_per_ip cexScan = [(IpAddr.v4 127 0 0 1, [443, 80])] ∧
    ¬List.Sorted (· ≤ ·) [443, 80] := by
  refine ⟨by decide, by decide, ?_⟩
  simp [List.sorted_cons]

/-- C4, amended: the scan result is emitted as a grouped mapping from each
IP to the list of its open ports in the order the engine reported them (the
code does not sort); in greppable (or no-nmap) mode each host is rendered on
one line in the format `<ip> -> [p1,p2,…]` with the ports comma-joined and
no spaces. -/
theorem claim_C4_amended :
    (∀ (scanResult : List SocketAddr) (ip : IpAddr),
      portsOf (group_ports_per_ip scanResult) ip =
        (scanResult.filter (fun s => s.ip = ip)).map SocketAddr.port) ∧
    (∀ (env : NetEnv) (opts : Opts) (st : RlimitState) (setrlimitOk : Bool)
        (scanRun : Nat → List SocketAddr),
      (opts.greppable || opts.no_nmap) = true →
      (parse_addresses env opts).isEmpty = false →
      (main_model env opts st setrlimitOk scanRun).outputLines =
        (group_ports_per_ip
            (scanRun
              (infer_batch_size opts (adjust_ulimit_size opts st setrlimitOk).1))).map
          (fun e => greppable_line e.1 e.2)) ∧
    greppable_line (IpAddr.v4 127 0 0 1) [443, 80] = ("127.0.0.1 -> [443,80]") := by
  refine ⟨group_ports_per_ip_spec, ?_, by decide⟩
  intro env opts st setrlimitOk scanRun hg hp
  simp [main_model, hp, hg]

/-- Witness for the amended C4 on the concrete out-of-order scan result. -/
theorem claim_C4_witness :
    portsOf (group_ports_per_ip cexScan) (IpAddr.v4 127 0 0 1) = [443, 80] ∧
    (main_model refEnv (testOpts [("127.0.0.1")] 4500) (RlimitState.mk 8000 8000)
        true (fun _ => cexScan)).outputLines = [("127.0.0.1 -> [443,80]")] := by
  constructor
  · rw [claim_C4_amended.1 cexScan (IpAddr.v4 127 0 0 1)]; decide
  · rw [claim_C4_amended.2.1 refEnv (testOpts [("127.0.0.1")] 4500)
      (RlimitState.mk 8000 8000) true (fun _ => cexScan) (by decide) (by decide)]
    decide

/-- C5: the process exits with code 1 when the resolved IP list is empty,
aborting before the scan engine is constructed; when at least one host
resolved, the run finishes with exit code 0 (even when the engine finds no
open ports, as the witness instantiates). -/
theorem claim_C5 (env : NetEnv) (opts : Opts) (st : RlimitState)
    (setrlimitOk : Bool) (scanRun : Nat → List SocketAddr) :
    ((parse_addresses env opts).isEmpty = true →
      main_model env opts st setrlimitOk scanRun = MainResult.mk 1 false []) ∧
    ((parse_addresses env opts).isEmpty = false →
      (main_model env opts st setrlimitOk scanRun).exitCode = 0 ∧
      (main_model env opts st setrlimitOk scanRun).scannerBuilt = true) := by
  constructor <;> intro h <;> simp [main_model, h]

/-- Witness for C5: an unresolvable input aborts with code 1 and no scanner;
a resolvable one with an empty scan result still finishes with code 0. -/
theorem claim_C5_witness :
    main_model refEnv (testOpts [("im_wrong")] 4500) (RlimitState.mk 8000 8000)
        true (fun _ => []) = MainResult.mk 1 false [] ∧
    (main_model refEnv (testOpts [("127.0.0.1")] 4500) (RlimitState.mk 8000 8000)
        true (fun _ => [])).exitCode = 0 := by
  refine ⟨(claim_C5 refEnv (testOpts [("im_wrong")] 4500)
      (RlimitState.mk 8000 8000) true (fun _ => [])).1 (by decide),
    ((claim_C5 refEnv (testOpts [("127.0.0.1")] 4500)
      (RlimitState.mk 8000 8000) true (fun _ => [])).2 (by decide)).1⟩

/-- C6: entries that resolve to no address and name no readable file
contribute nothing — dropping them from the input leaves the parse result
unchanged — and in particular `["im_wrong", "300.10.1.1"]` parses to `[]`
while `["127.0.0.1", "im_wrong"]` parses to exactly `[127.0.0.1]`. -/
theorem claim_C6 :
    (∀ (env : NetEnv) (input : Opts),
      parse_addresses env input =
        parse_addresses env
          (Opts.mk (input.addresses.filter (fun a => entryResolves env a))
            input.batch_size input.ulimit input.greppable input.accessible
            input.no_nmap)) ∧
    parse_addresses refEnv (testOpts [("im_wrong"), ("300.10.1.1")] 4500) = [] ∧
    parse_addresses refEnv (testOpts [("127.0.0.1"), ("im_wrong")] 4500) =
      [IpAddr.v4 127 0 0 1] := by
  refine ⟨?_, by decide, by decide⟩
  intro env input
  rw [parse_addresses_decomposition, parse_addresses_decomposition]
  dsimp only
  rw [flatMap_parse_filter, filter_file_contrib]

/-- C7 as stated is false: when the socket-address lookup fails and the
injectable resolver returns two addresses for a hostname, `parse_address`
retains both of them, not only the first. -/
theorem claim_C7_counterexample :
    parse_address multiAddrEnv ("multi.example.com") =
      [IpAddr.v4 10 0 0 1, IpAddr.v4 10 0 0 2] ∧
    (parse_address multiAddrEnv ("multi.example.com")).length ≠ 1 := by decide

/-- C7, amended: a hostname that the OS socket-address lookup resolves
contributes exactly the first resolved address; only when that lookup fails
is the injectable resolver consulted, and then every address it returns is
retained. -/
theorem claim_C7_amended (env : NetEnv) (host : String) (ip : IpAddr)
    (hcidr : ipCidrFromStr host = none) :
    (env.socketAddrFirst host = some ip → parse_address env host = [ip]) ∧
    (env.socketAddrFirst host = none →
      parse_address env host = resolve_ips_from_host env host) := by
  constructor <;> intro h <;> simp [parse_address, hcidr, h]

/-- Witness for the amended C7 on concrete resolver environments. -/
theorem claim_C7_witness :
    parse_address oneAddrEnv ("multi.example.com") = [IpAddr.v4 10 0 0 1] ∧
    parse_address multiAddrEnv ("multi.example.com") =
      resolve_ips_from_host multiAddrEnv ("multi.example.com") := by
  refine ⟨(claim_C7_amended oneAddrEnv ("multi.example.com")
      (IpAddr.v4 10 0 0 1) (by decide)).1 rfl,
    (claim_C7_amended multiAddrEnv ("multi.example.com")
      (IpAddr.v4 10 0 0 1) (by decide)).2 rfl⟩

/-- C8: with an explicit ulimit target, the governor attempts to raise both
the soft and the hard open-file limit to the target; on success both equal
the target and the target is returned, while a failed raise is non-fatal —
only a warning is recorded and the function still returns the soft limit
read back from the operating system. -/
theorem claim_C8 (opts : Opts) (st : RlimitState) (setrlimitOk : Bool)
    (target : Nat) (h : opts.ulimit = some target) :
    (setrlimitOk = true →
      adjust_ulimit_size opts st setrlimitOk =
        (target, RlimitState.mk target target, false)) ∧
    (setrlimitOk = false →
      adjust_ulimit_size opts st setrlimitOk = (st.soft, st, true)) := by
  constructor <;> intro hok <;> subst hok <;> simp [adjust_ulimit_size, h]

/-- Witness for C8 at the source test target 2000, from soft and hard
limits 100. -/
theorem claim_C8_witness :
    adjust_ulimit_size testOptsUlimit (RlimitState.mk 100 100) true =
      (2000, RlimitState.mk 2000 2000, false) ∧
    adjust_ulimit_size testOptsUlimit (RlimitState.mk 100 100) false =
      (100, RlimitState.mk 100 100, true) := by
  refine ⟨(claim_C8 testOptsUlimit (RlimitState.mk 100 100) true 2000 rfl).1 rfl,
    (claim_C8 testOptsUlimit (RlimitState.mk 100 100) false 2000 rfl).2 rfl⟩

/-- C9: `infer_batch_size` never returns more than the requested batch size,
in every case of its definition (requested ranges over the `u16` domain). -/
theorem claim_C9 (opts : Opts) (ulimit : Nat) (h : opts.batch_size < 65536) :
    infer_batch_size opts ulimit ≤ opts.batch_size := by
  simp only [infer_batch_size, AVERAGE_BATCH_SIZE, DEFAULT_FILE_DESCRIPTORS_LIMIT]
  split_ifs <;> omega

/-- Witness for C9 at the source test input `(50000, 120)`. -/
theorem claim_C9_witness : infer_batch_size (testOpts [] 50000) 120 ≤ 50000 :=
  claim_C9 (testOpts [] 50000) 120 (by decide)

/-- C10: address parsing first processes every entry as IP/CIDR/hostname in
input order, and only afterwards retries the entries that resolved to
nothing as file paths, in input order; hence the result is the
concatenation of all direct contributions followed by all file
contributions, so every file-derived IP comes after every directly resolved
IP regardless of where the file path occurred in the input list. -/
theorem claim_C10 (env : NetEnv) (input : Opts) :
    parse_addresses env input =
      input.addresses.flatMap (fun a => parse_address env a) ++
        (input.addresses.filter (fun a => (parse_address env a).isEmpty)).flatMap
          (fileContribution env) :=
  parse_addresses_decomposition env input

end RustScan
